import Mathlib

/-!
Verification of the AnchorBrowser adapter (src/computers/anchor.py).

The adapter drives a remote browser session through a vendor HTTP API and
falls back to a generic Playwright driver when the vendor call is
unavailable or fails.  We embed the adapter shallowly: every method becomes
a pure Lean function over an explicit state, parameterised by an oracle for
the vendor HTTP outcome, and returning the list of externally observable
events (vendor HTTP calls and fallback-driver invocations) in the order the
method performs them.  Exceptions escaping a method are modelled with
Except; a method whose Lean counterpart is a total function into a
non-Except type raises nothing to its caller.

The static API-key header sent on every vendor call is elided from the
event trace: no property below concerns authentication.
-/

namespace Anchor

/-- A vendor HTTP response as seen by the requests library:
a status code and the response body text. -/
structure HttpResponse where
  status_code : Nat
  text : String
  deriving DecidableEq, Repr

/-- Embedding of requests.Response.ok, which is documented and implemented
as: True iff status_code is less than 400. -/
def HttpResponse.ok (r : HttpResponse) : Bool :=
  r.status_code < 400

/-- Outcome of one vendor HTTP call: either a response object, or a
transport exception raised by the requests call itself. -/
inductive VendorOutcome where
  | resp (r : HttpResponse)
  | exn
  deriving DecidableEq, Repr

/-- JSON values appearing in the request bodies the adapter sends. -/
inductive JsonVal where
  | str (s : String)
  | num (n : Int)
  deriving DecidableEq, Repr

/-- Externally observable side effects of one adapter method call, in
program order: vendor HTTP calls (with URL and, for POST, body) and
fallback-driver invocations (the super() calls into
BasePlaywrightComputer). -/
inductive Event where
  | vendorGet (url : String)
  | vendorPost (url : String) (body : List (String × JsonVal))
  | vendorDelete (url : String)
  | fallbackScreenshot
  | fallbackClick (x y : Int) (button : String)
  | fallbackType (text : String)
  deriving DecidableEq, Repr

/-- The adapter state the command methods read: self.base_url and
self.session_id (nullable). -/
structure AnchorState where
  base_url : String
  session_id : Option String
  deriving DecidableEq, Repr

/-- AnchorBrowser.screenshot.  Given the vendor outcome for the GET (used
only when a session id exists) and the value the fallback driver's
screenshot would return, yields the returned string and the event trace.
For a transport exception the trace still records the attempted GET. -/
def screenshot (s : AnchorState) (vendor : VendorOutcome) (fallbackResult : String) :
    String × List Event :=
  match s.session_id with
  | none => (fallbackResult, [Event.fallbackScreenshot])
  | some sid =>
    let url := s.base_url ++ "/sessions/" ++ sid ++ "/screenshot"
    match vendor with
    | VendorOutcome.exn => (fallbackResult, [Event.vendorGet url, Event.fallbackScreenshot])
    | VendorOutcome.resp r =>
      if r.ok then (r.text, [Event.vendorGet url])
      else (fallbackResult, [Event.vendorGet url, Event.fallbackScreenshot])

/-- The dictionary lookup button_mapping.get(button, "left") over the
dictionary with entries left-to-left and right-to-right. -/
def button_mapping (button : String) : String :=
  if button = "left" then "left"
  else if button = "right" then "right"
  else "left"

/-- AnchorBrowser.click.  Buttons back, forward and wheel go straight to
the fallback driver; with no session id the fallback driver is used; else
a POST to the mouse-click endpoint is attempted, falling back on a non-ok
response or a transport exception. -/
def click (s : AnchorState) (x y : Int) (button : String) (vendor : VendorOutcome) :
    List Event :=
  if button = "back" ∨ button = "forward" ∨ button = "wheel" then
    [Event.fallbackClick x y button]
  else
    match s.session_id with
    | none => [Event.fallbackClick x y button]
    | some sid =>
      let url := s.base_url ++ "/sessions/" ++ sid ++ "/mouse/click"
      let body := [("x", JsonVal.num x), ("y", JsonVal.num y),
                   ("button", JsonVal.str (button_mapping button))]
      match vendor with
      | VendorOutcome.exn => [Event.vendorPost url body, Event.fallbackClick x y button]
      | VendorOutcome.resp r =>
        if r.ok then [Event.vendorPost url body]
        else [Event.vendorPost url body, Event.fallbackClick x y button]

/-- AnchorBrowser.type.  With no session id the fallback driver is used;
else a POST of the text with a fixed 30 ms delay is attempted, falling
back on a non-ok response or a transport exception. -/
def type (s : AnchorState) (text : String) (vendor : VendorOutcome) : List Event :=
  match s.session_id with
  | none => [Event.fallbackType text]
  | some sid =>
    let url := s.base_url ++ "/sessions/" ++ sid ++ "/keyboard/type"
    let body := [("text", JsonVal.str text), ("delay", JsonVal.num 30)]
    match vendor with
    | VendorOutcome.exn => [Event.vendorPost url body, Event.fallbackType text]
    | VendorOutcome.resp r =>
      if r.ok then [Event.vendorPost url body]
      else [Event.vendorPost url body, Event.fallbackType text]

/-- AnchorBrowser.__exit__ (session teardown).  If a session id is stored,
a DELETE is issued; the response object is ignored, so any HTTP response
(of any status) clears the stored id, while a transport exception
propagates to the caller (modelled as Except.error) leaving the id in
place.  With no session id nothing happens. -/
def exitTeardown (s : AnchorState) (vendor : VendorOutcome) :
    Except Unit (AnchorState × List Event) :=
  match s.session_id with
  | none => Except.ok (s, [])
  | some sid =>
    match vendor with
    | VendorOutcome.exn => Except.error ()
    | VendorOutcome.resp _ =>
      Except.ok ({ s with session_id := none },
                 [Event.vendorDelete (s.base_url ++ "/sessions/" ++ sid)])

/-- The vendor response to the session-creation POST: a status code and
the value of response.json().get("id") (absent key gives none). -/
structure CreateResponse where
  status_code : Nat
  id : Option String
  deriving DecidableEq, Repr

/-- Outcome of the session-creation POST. -/
inductive CreateOutcome where
  | resp (r : CreateResponse)
  | exn
  deriving DecidableEq, Repr

/-- The errors the session-creation part of _get_browser_and_page can
raise: a transport exception from requests.post, the HTTPError from
response.raise_for_status, or the ValueError raised when the session id
is falsy. -/
inductive SessionError where
  | transport
  | httpError (status : Nat)
  | noId
  deriving DecidableEq, Repr

/-- Embedding of requests.Response.raise_for_status, which raises HTTPError
exactly for client-error (400-499) and server-error (500-599) codes. -/
def raisesForStatus (status : Nat) : Bool :=
  400 ≤ status ∧ status < 600

/-- The session-creation part of AnchorBrowser._get_browser_and_page:
POST to the sessions endpoint, raise_for_status, read id from the JSON
body and raise ValueError when it is falsy (absent, or the empty string),
else store it in self.session_id.  The subsequent CDP connection, page
listener registration and initial navigation are modelled separately by
the page-lifecycle tracker below. -/
def createSession (s : AnchorState) (vendor : CreateOutcome) :
    Except SessionError AnchorState :=
  match vendor with
  | CreateOutcome.exn => Except.error SessionError.transport
  | CreateOutcome.resp r =>
    if raisesForStatus r.status_code then Except.error (SessionError.httpError r.status_code)
    else
      match r.id with
      | none => Except.error SessionError.noId
      | some i =>
        if i = "" then Except.error SessionError.noId
        else Except.ok { s with session_id := some i }

/-- Pages are identified by opaque numerals. -/
abbrev Page := Nat

/-- The page-tracking state: self._page (the active page reference),
self._browser.contexts[0].pages (the context's current page list, owned
by the connection), and the set of pages on which _handle_new_page has
registered a close listener. -/
structure TrackerState where
  activePage : Option Page
  contextPages : List Page
  closeListeners : List Page
  deriving DecidableEq, Repr

/-- AnchorBrowser._handle_page_close, as a function of the active page
reference, the context's page list as read inside the handler (the closed
page has already been removed from it by the connection), and the closed
page.  Returns the new active page reference and whether the
all-pages-closed warning was printed. -/
def _handle_page_close (active : Option Page) (contextPages : List Page) (p : Page) :
    Option Page × Bool :=
  if active = some p then
    match contextPages.getLast? with
    | some lastPage => (some lastPage, false)
    | none => (none, true)
  else (active, false)

/-- AnchorBrowser._handle_new_page: record the new page as active and
register a close listener on it. -/
def _handle_new_page (st : TrackerState) (p : Page) : TrackerState :=
  { st with activePage := some p, closeListeners := st.closeListeners ++ [p] }

/-- The out-of-band events the connection dispatches to the tracker. -/
inductive PageEvent where
  | newPage (p : Page)
  | closePage (p : Page)
  deriving DecidableEq, Repr

/-- The tracker state right after _get_browser_and_page resolves the
connection: the active page is the context's first (and only) page, the
context page listener is registered, and no close listener has been
registered on any page. -/
def initTracker (p0 : Page) : TrackerState :=
  { activePage := some p0, contextPages := [p0], closeListeners := [] }

/-- One dispatch step of the connection's event loop.  A new page is
appended to the context's page list and then the registered context
listener _handle_new_page runs.  A closing page is first removed from the
context's page list; _handle_page_close then runs only if a close
listener was registered on that page. -/
def step (st : TrackerState) (e : PageEvent) : TrackerState :=
  match e with
  | PageEvent.newPage p =>
    _handle_new_page { st with contextPages := st.contextPages ++ [p] } p
  | PageEvent.closePage p =>
    let st1 := { st with contextPages := st.contextPages.erase p }
    if p ∈ st1.closeListeners then
      { st1 with activePage := (_handle_page_close st1.activePage st1.contextPages p).1 }
    else st1

/-- Run the tracker from its initial state over a list of page events. -/
def run (p0 : Page) (events : List PageEvent) : TrackerState :=
  events.foldl step (initTracker p0)

/-- C2: for every command (screenshot, click, type) invoked while the
stored session identifier is null, the call delegates to the fallback
driver's equivalent operation exactly once, performs no vendor HTTP call,
and raises no error (each method is a total function here, so nothing is
raised). -/
theorem no_session_delegates_to_fallback (s : AnchorState) (h : s.session_id = none)
    (v : VendorOutcome) (fb : String) (x y : Int) (button text : String) :
    screenshot s v fb = (fb, [Event.fallbackScreenshot]) ∧
    click s x y button v = [Event.fallbackClick x y button] ∧
    type s text v = [Event.fallbackType text] := by
  refine ⟨?_, ?_, ?_⟩ <;> simp [screenshot, click, type, h]

theorem no_session_delegates_to_fallback_witness :
    screenshot { base_url := "u", session_id := none } VendorOutcome.exn "FB" =
      ("FB", [Event.fallbackScreenshot]) ∧
    click { base_url := "u", session_id := none } 3 4 "left" VendorOutcome.exn =
      [Event.fallbackClick 3 4 "left"] ∧
    type { base_url := "u", session_id := none } "hi" VendorOutcome.exn =
      [Event.fallbackType "hi"] :=
  no_session_delegates_to_fallback { base_url := "u", session_id := none } rfl
    VendorOutcome.exn "FB" 3 4 "left" "hi"

/-- C5: for every session state, click with button back, forward or wheel
never issues a vendor mouse-click HTTP call and always delegates to the
fallback driver's click. -/
theorem special_buttons_always_fallback (s : AnchorState) (x y : Int) (button : String)
    (hb : button = "back" ∨ button = "forward" ∨ button = "wheel") (v : VendorOutcome) :
    click s x y button v = [Event.fallbackClick x y button] := by
  unfold click
  rw [if_pos hb]

theorem special_buttons_always_fallback_witness :
    click { base_url := "u", session_id := some "abc123" } 3 4 "wheel"
      (VendorOutcome.resp { status_code := 200, text := "" }) =
      [Event.fallbackClick 3 4 "wheel"] :=
  special_buttons_always_fallback { base_url := "u", session_id := some "abc123" } 3 4
    "wheel" (Or.inr (Or.inr rfl)) (VendorOutcome.resp { status_code := 200, text := "" })

/-- C6: when an active session id exists and the vendor screenshot endpoint
responds with HTTP success (2xx), screenshot returns the response body
verbatim and does not invoke the fallback driver: the trace holds exactly
the vendor GET. -/
theorem screenshot_success_verbatim (s : AnchorState) (sid : String)
    (h : s.session_id = some sid) (r : HttpResponse)
    (h2 : 200 ≤ r.status_code) (h3 : r.status_code < 300) (fb : String) :
    screenshot s (VendorOutcome.resp r) fb =
      (r.text, [Event.vendorGet (s.base_url ++ "/sessions/" ++ sid ++ "/screenshot")]) := by
  have hok : r.ok = true := by
    simp only [HttpResponse.ok, decide_eq_true_eq]
    omega
  simp [screenshot, h, hok]

theorem screenshot_success_verbatim_witness :
    screenshot { base_url := "https://api.anchorbrowser.io/api", session_id := some "abc123" }
      (VendorOutcome.resp { status_code := 200, text := "BASE64DATA" }) "FB" =
      ("BASE64DATA",
       [Event.vendorGet "https://api.anchorbrowser.io/api/sessions/abc123/screenshot"]) :=
  screenshot_success_verbatim
    { base_url := "https://api.anchorbrowser.io/api", session_id := some "abc123" } "abc123"
    rfl { status_code := 200, text := "BASE64DATA" } (by decide) (by decide) "FB"

/-- C8: when an active session id exists, type issues a POST to the
keyboard-type endpoint whose body holds the given text and a fixed delay
of 30 milliseconds, whatever the vendor outcome is. -/
theorem type_posts_text_and_delay (s : AnchorState) (sid : String)
    (h : s.session_id = some sid) (text : String) (v : VendorOutcome) :
    ∃ rest, type s text v =
      Event.vendorPost (s.base_url ++ "/sessions/" ++ sid ++ "/keyboard/type")
        [("text", JsonVal.str text), ("delay", JsonVal.num 30)] :: rest := by
  cases v with
  | exn => exact ⟨[Event.fallbackType text], by simp [type, h]⟩
  | resp r =>
    by_cases hr : r.ok
    · exact ⟨[], by simp [type, h, hr]⟩
    · exact ⟨[Event.fallbackType text], by simp [type, h, hr]⟩

theorem type_posts_text_and_delay_witness :
    ∃ rest, type { base_url := "u", session_id := some "abc123" } "hello"
      (VendorOutcome.resp { status_code := 200, text := "" }) =
      Event.vendorPost "u/sessions/abc123/keyboard/type"
        [("text", JsonVal.str "hello"), ("delay", JsonVal.num 30)] :: rest :=
  type_posts_text_and_delay { base_url := "u", session_id := some "abc123" } "abc123" rfl
    "hello" (VendorOutcome.resp { status_code := 200, text := "" })

/-- C1 (amended): for every vendor HTTP response the requests library
treats as failed (status at least 400, so response.ok is false) during
screenshot, click or type with an active session id, the operation invokes
the fallback driver's equivalent operation exactly once after the single
vendor call, and no vendor-layer error escapes (the methods are total);
the same holds for a transport exception.  For click the button must be
one the vendor path handles at all (not back, forward or wheel). -/
theorem vendor_failure_falls_back_once (s : AnchorState) (sid : String)
    (h : s.session_id = some sid) (r : HttpResponse) (hr : 400 ≤ r.status_code)
    (fb : String) (x y : Int) (button text : String)
    (hb : ¬(button = "back" ∨ button = "forward" ∨ button = "wheel")) :
    screenshot s (VendorOutcome.resp r) fb =
      (fb, [Event.vendorGet (s.base_url ++ "/sessions/" ++ sid ++ "/screenshot"),
            Event.fallbackScreenshot]) ∧
    screenshot s VendorOutcome.exn fb =
      (fb, [Event.vendorGet (s.base_url ++ "/sessions/" ++ sid ++ "/screenshot"),
            Event.fallbackScreenshot]) ∧
    click s x y button (VendorOutcome.resp r) =
      [Event.vendorPost (s.base_url ++ "/sessions/" ++ sid ++ "/mouse/click")
         [("x", JsonVal.num x), ("y", JsonVal.num y),
          ("button", JsonVal.str (button_mapping button))],
       Event.fallbackClick x y button] ∧
    click s x y button VendorOutcome.exn =
      [Event.vendorPost (s.base_url ++ "/sessions/" ++ sid ++ "/mouse/click")
         [("x", JsonVal.num x), ("y", JsonVal.num y),
          ("button", JsonVal.str (button_mapping button))],
       Event.fallbackClick x y button] ∧
    type s text (VendorOutcome.resp r) =
      [Event.vendorPost (s.base_url ++ "/sessions/" ++ sid ++ "/keyboard/type")
         [("text", JsonVal.str text), ("delay", JsonVal.num 30)],
       Event.fallbackType text] ∧
    type s text VendorOutcome.exn =
      [Event.vendorPost (s.base_url ++ "/sessions/" ++ sid ++ "/keyboard/type")
         [("text", JsonVal.str text), ("delay", JsonVal.num 30)],
       Event.fallbackType text] := by
  have hok : r.ok = false := by
    simp only [HttpResponse.ok, decide_eq_false_iff_not, not_lt]
    omega
  refine ⟨?_, ?_, ?_, ?_, ?_, ?_⟩ <;>
    simp [screenshot, click, type, h, hok, hb]

theorem vendor_failure_falls_back_once_witness :
    screenshot { base_url := "u", session_id := some "abc123" }
      (VendorOutcome.resp { status_code := 500, text := "oops" }) "FB" =
      ("FB", [Event.vendorGet "u/sessions/abc123/screenshot", Event.fallbackScreenshot]) ∧
    screenshot { base_url := "u", session_id := some "abc123" } VendorOutcome.exn "FB" =
      ("FB", [Event.vendorGet "u/sessions/abc123/screenshot", Event.fallbackScreenshot]) ∧
    click { base_url := "u", session_id := some "abc123" } 3 4 "right"
      (VendorOutcome.resp { status_code := 500, text := "oops" }) =
      [Event.vendorPost "u/sessions/abc123/mouse/click"
         [("x", JsonVal.num 3), ("y", JsonVal.num 4),
          ("button", JsonVal.str (button_mapping "right"))],
       Event.fallbackClick 3 4 "right"] ∧
    click { base_url := "u", session_id := some "abc123" } 3 4 "right" VendorOutcome.exn =
      [Event.vendorPost "u/sessions/abc123/mouse/click"
         [("x", JsonVal.num 3), ("y", JsonVal.num 4),
          ("button", JsonVal.str (button_mapping "right"))],
       Event.fallbackClick 3 4 "right"] ∧
    type { base_url := "u", session_id := some "abc123" } "hi"
      (VendorOutcome.resp { status_code := 500, text := "oops" }) =
      [Event.vendorPost "u/sessions/abc123/keyboard/type"
         [("text", JsonVal.str "hi"), ("delay", JsonVal.num 30)],
       Event.fallbackType "hi"] ∧
    type { base_url := "u", session_id := some "abc123" } "hi" VendorOutcome.exn =
      [Event.vendorPost "u/sessions/abc123/keyboard/type"
         [("text", JsonVal.str "hi"), ("delay", JsonVal.num 30)],
       Event.fallbackType "hi"] :=
  vendor_failure_falls_back_once { base_url := "u", session_id := some "abc123" } "abc123"
    rfl { status_code := 500, text := "oops" } (by decide) "FB" 3 4 "right" "hi" (by decide)

/-- C1 (counterexample to the claim as stated): a 304 response has a
non-2xx status, yet requests.Response.ok is true for every status below
400, so with an active session id the adapter returns the vendor body and
never invokes the fallback driver — the claimed single fallback invocation
does not happen. -/
theorem screenshot_304_no_fallback :
    screenshot { base_url := "https://api.anchorbrowser.io/api", session_id := some "abc123" }
      (VendorOutcome.resp { status_code := 304, text := "STALE" }) "FB" =
      ("STALE",
       [Event.vendorGet "https://api.anchorbrowser.io/api/sessions/abc123/screenshot"]) := by
  rfl

/-- C4: session teardown is idempotent.  With a stored session id, the
first teardown (whose DELETE returns any HTTP response — the response is
ignored) issues exactly one delete request and clears the stored id; the
second call on the resulting state is a no-op that issues no request and
raises no error. -/
theorem teardown_idempotent (s : AnchorState) (sid : String)
    (h : s.session_id = some sid) (r : HttpResponse) (v2 : VendorOutcome) :
    exitTeardown s (VendorOutcome.resp r) =
      Except.ok ({ s with session_id := none },
                 [Event.vendorDelete (s.base_url ++ "/sessions/" ++ sid)]) ∧
    exitTeardown { s with session_id := none } v2 =
      Except.ok ({ s with session_id := none }, []) := by
  constructor
  · simp [exitTeardown, h]
  · simp [exitTeardown]

theorem teardown_idempotent_witness :
    exitTeardown { base_url := "u", session_id := some "abc123" }
      (VendorOutcome.resp { status_code := 200, text := "" }) =
      Except.ok ({ base_url := "u", session_id := none },
                 [Event.vendorDelete "u/sessions/abc123"]) ∧
    exitTeardown { base_url := "u", session_id := none } VendorOutcome.exn =
      Except.ok ({ base_url := "u", session_id := none }, []) :=
  teardown_idempotent { base_url := "u", session_id := some "abc123" } "abc123" rfl
    { status_code := 200, text := "" } VendorOutcome.exn

/-- C9: when an active session id exists, click with a button outside the
five known strings (for example middle) is sent to the vendor mouse-click
endpoint with the button field mapped to left — the trace starts with that
POST — and when the response is ok the fallback driver is never invoked. -/
theorem unknown_button_mapped_left (s : AnchorState) (sid : String)
    (h : s.session_id = some sid) (x y : Int) (button : String)
    (hb : button ≠ "left" ∧ button ≠ "right" ∧ button ≠ "back" ∧
          button ≠ "forward" ∧ button ≠ "wheel") (v : VendorOutcome) :
    (∃ rest, click s x y button v =
      Event.vendorPost (s.base_url ++ "/sessions/" ++ sid ++ "/mouse/click")
        [("x", JsonVal.num x), ("y", JsonVal.num y),
         ("button", JsonVal.str "left")] :: rest) ∧
    (∀ r : HttpResponse, r.ok = true →
      click s x y button (VendorOutcome.resp r) =
        [Event.vendorPost (s.base_url ++ "/sessions/" ++ sid ++ "/mouse/click")
           [("x", JsonVal.num x), ("y", JsonVal.num y),
            ("button", JsonVal.str "left")]]) := by
  obtain ⟨h1, h2, h3, h4, h5⟩ := hb
  have hm : button_mapping button = "left" := by
    simp [button_mapping, h1, h2]
  constructor
  · cases v with
    | exn =>
      exact ⟨[Event.fallbackClick x y button], by simp [click, h, h3, h4, h5, hm]⟩
    | resp r =>
      by_cases hr : r.ok
      · exact ⟨[], by simp [click, h, h3, h4, h5, hm, hr]⟩
      · exact ⟨[Event.fallbackClick x y button], by simp [click, h, h3, h4, h5, hm, hr]⟩
  · intro r hr
    simp [click, h, h3, h4, h5, hm, hr]

theorem unknown_button_mapped_left_witness :
    (∃ rest, click { base_url := "u", session_id := some "abc123" } 3 4 "middle"
      (VendorOutcome.resp { status_code := 200, text := "" }) =
      Event.vendorPost "u/sessions/abc123/mouse/click"
        [("x", JsonVal.num 3), ("y", JsonVal.num 4),
         ("button", JsonVal.str "left")] :: rest) ∧
    (∀ r : HttpResponse, r.ok = true →
      click { base_url := "u", session_id := some "abc123" } 3 4 "middle"
        (VendorOutcome.resp r) =
        [Event.vendorPost "u/sessions/abc123/mouse/click"
           [("x", JsonVal.num 3), ("y", JsonVal.num 4),
            ("button", JsonVal.str "left")]]) :=
  unknown_button_mapped_left { base_url := "u", session_id := some "abc123" } "abc123" rfl
    3 4 "middle" (by refine ⟨?_, ?_, ?_, ?_, ?_⟩ <;> decide)
    (VendorOutcome.resp { status_code := 200, text := "" })

/-- C7 (amended): session creation fails with an error if the vendor
response carries an error status (raise_for_status fires for 400-599), or
the response's id field is absent or the empty string; otherwise it stores
the returned identifier in the object's state. -/
theorem createSession_contract (s : AnchorState) (r : CreateResponse) :
    (raisesForStatus r.status_code = true →
      createSession s (CreateOutcome.resp r) =
        Except.error (SessionError.httpError r.status_code)) ∧
    (raisesForStatus r.status_code = false → r.id = none →
      createSession s (CreateOutcome.resp r) = Except.error SessionError.noId) ∧
    (raisesForStatus r.status_code = false → r.id = some "" →
      createSession s (CreateOutcome.resp r) = Except.error SessionError.noId) ∧
    (∀ i, raisesForStatus r.status_code = false → r.id = some i → i ≠ "" →
      createSession s (CreateOutcome.resp r) =
        Except.ok { s with session_id := some i }) := by
  refine ⟨?_, ?_, ?_, ?_⟩
  · intro hst
    simp [createSession, hst]
  · intro hst hid
    simp [createSession, hst, hid]
  · intro hst hid
    simp [createSession, hst, hid]
  · intro i hst hid hne
    simp [createSession, hst, hid, hne]

theorem createSession_contract_witness :
    (raisesForStatus 500 = true →
      createSession { base_url := "u", session_id := none }
        (CreateOutcome.resp { status_code := 500, id := some "abc123" }) =
        Except.error (SessionError.httpError 500)) ∧
    (raisesForStatus 500 = false →
      (some "abc123" : Option String) = none →
      createSession { base_url := "u", session_id := none }
        (CreateOutcome.resp { status_code := 500, id := some "abc123" }) =
        Except.error SessionError.noId) ∧
    (raisesForStatus 500 = false →
      (some "abc123" : Option String) = some "" →
      createSession { base_url := "u", session_id := none }
        (CreateOutcome.resp { status_code := 500, id := some "abc123" }) =
        Except.error SessionError.noId) ∧
    (∀ i, raisesForStatus 500 = false →
      (some "abc123" : Option String) = some i → i ≠ "" →
      createSession { base_url := "u", session_id := none }
        (CreateOutcome.resp { status_code := 500, id := some "abc123" }) =
        Except.ok { base_url := "u", session_id := some i }) :=
  createSession_contract { base_url := "u", session_id := none }
    { status_code := 500, id := some "abc123" }

/-- C7 (counterexample to the claim as stated): a successful (200)
response whose id field holds the empty string neither omits an
identifier nor is unsuccessful, yet session creation raises the
ValueError, because the Python truthiness test rejects the empty string;
the identifier is not stored for the object's lifetime. -/
theorem createSession_empty_id_fails :
    createSession { base_url := "https://api.anchorbrowser.io/api", session_id := none }
      (CreateOutcome.resp { status_code := 200, id := some "" }) =
      Except.error SessionError.noId := by
  rfl

/-- C3: on a close event for page P, if P is the current active page and
the handler sees a non-empty context page list, the active page reference
becomes the last page of that list (with no warning); if P is active and
no pages remain, the reference becomes none and the warning is emitted;
if P is not the active page, nothing changes. -/
theorem handle_page_close_transitions (active : Option Page) (pages : List Page) (p : Page) :
    (active = some p → pages ≠ [] →
      _handle_page_close active pages p = (pages.getLast?, false)) ∧
    (active = some p → pages = [] →
      _handle_page_close active pages p = (none, true)) ∧
    (active ≠ some p →
      _handle_page_close active pages p = (active, false)) := by
  refine ⟨?_, ?_, ?_⟩
  · intro ha hne
    rw [_handle_page_close, if_pos ha]
    cases hl : pages.getLast? with
    | none => exact absurd (List.getLast?_eq_none_iff.mp hl) hne
    | some lastPage => rfl
  · intro ha hnil
    subst hnil
    rw [_handle_page_close, if_pos ha]
    rfl
  · intro ha
    rw [_handle_page_close, if_neg ha]

theorem handle_page_close_transitions_witness :
    _handle_page_close (some 1) [2, 3] 1 = (some 3, false) ∧
    _handle_page_close (some 1) [] 1 = (none, true) ∧
    _handle_page_close (some 1) [2, 3] 2 = (some 1, false) :=
  ⟨(handle_page_close_transitions (some 1) [2, 3] 1).1 rfl (by decide),
   (handle_page_close_transitions (some 1) [] 1).2.1 rfl rfl,
   (handle_page_close_transitions (some 1) [2, 3] 2).2.2 (by decide)⟩

/-- Dispatching a close event never changes the set of pages carrying a
registered close listener. -/
theorem step_closePage_closeListeners (st : TrackerState) (p : Page) :
    (step st (PageEvent.closePage p)).closeListeners = st.closeListeners := by
  rw [step]
  split <;> rfl

/-- A page carrying a close listener after a run of events either carried
one already or arrived through a new-page event of the run: only
_handle_new_page registers close listeners. -/
theorem closeListeners_from_newPage (events : List PageEvent) (st : TrackerState)
    (q : Page) (hq : q ∈ (events.foldl step st).closeListeners) :
    q ∈ st.closeListeners ∨ PageEvent.newPage q ∈ events := by
  induction events generalizing st with
  | nil => exact Or.inl hq
  | cons e es ih =>
    rcases ih (step st e) hq with h1 | h1
    · cases e with
      | newPage p =>
        have hmem : q ∈ st.closeListeners ++ [p] := h1
        rcases List.mem_append.mp hmem with h2 | h2
        · exact Or.inl h2
        · right
          have : q = p := by simpa using h2
          subst this
          exact List.mem_cons_self _ _
      | closePage p =>
        rw [step_closePage_closeListeners] at h1
        exact Or.inl h1
    · exact Or.inr (List.mem_cons_of_mem _ h1)

/-- C10: _get_browser_and_page registers no close listener on the initial
page; only pages arriving through a new-page event get one.  Provided no
new-page event of the run carries the initial page (the connection fires
new-page only for pages created after resolution), the initial page never
carries a close listener, so its close event never triggers
_handle_page_close and leaves the active page reference unchanged. -/
theorem initial_page_close_ignored (p0 : Page) (events : List PageEvent)
    (h : ∀ p, PageEvent.newPage p ∈ events → p ≠ p0) :
    p0 ∉ (run p0 events).closeListeners ∧
    (step (run p0 events) (PageEvent.closePage p0)).activePage =
      (run p0 events).activePage := by
  have hmem : p0 ∉ (run p0 events).closeListeners := by
    intro hc
    rcases closeListeners_from_newPage events (initTracker p0) p0 hc with h1 | h1
    · simp [initTracker] at h1
    · exact h p0 h1 rfl
  refine ⟨hmem, ?_⟩
  rw [step]
  split
  · next hin => exact absurd hin hmem
  · rfl

theorem initial_page_close_ignored_witness :
    0 ∉ (run 0 [PageEvent.newPage 1]).closeListeners ∧
    (step (run 0 [PageEvent.newPage 1]) (PageEvent.closePage 0)).activePage =
      (run 0 [PageEvent.newPage 1]).activePage :=
  initial_page_close_ignored 0 [PageEvent.newPage 1]
    (by
      intro p hp
      have : p = 1 := by simpa using hp
      subst this
      decide)

end Anchor
